import Mathlib

/-!
Verification of the cvxkerb-js trajectory-generation core.

The development shallowly embeds, over `ℚ`:
* `src/simulation/PhysicsEngine.ts` (`createInitialState`, `stepPhysics`);
* `src/simulation/GFoldSolver.ts` (`solveLanding`'s constraint construction,
  `extractScalar`, trajectory extraction, the post-solve status check);
* the playback interpolation of `src/components/Scene.tsx`.

Machine floating-point numbers are modelled as exact rationals; the external
conic solver is modelled by its contract: a primal assignment that satisfies
every constraint of the built program.
-/

namespace CvxKerb

/-- 3-vectors `[x, y, z]`; component index 2 (`.2.2`) is the altitude axis. -/
abbrev Vec3 := ℚ × ℚ × ℚ

/-! ## PhysicsEngine.ts -/

/-- `PhysicsConfig` from PhysicsEngine.ts. -/
structure PhysicsConfig where
  gravity : ℚ
  mass : ℚ
  maxThrust : ℚ
  burnDuration : ℚ
deriving DecidableEq, Repr

/-- `PhysicsState` from PhysicsEngine.ts. -/
structure PhysicsState where
  position : Vec3
  velocity : Vec3
  thrust : Vec3
  elapsedTime : ℚ
  isEngineOn : Bool
  hasCrashed : Bool
  hasLandedSafely : Bool
deriving DecidableEq, Repr

/-- `createInitialState` from PhysicsEngine.ts. -/
def createInitialState : PhysicsState :=
  { position := (0, 0, 25)
    velocity := (0, 0, 0)
    thrust := (0, 0, 0)
    elapsedTime := 0
    isEngineOn := true
    hasCrashed := false
    hasLandedSafely := false }

/-- The fixed safe-landing threshold `SAFE_LANDING_SPEED = 5` (m/s) from
`stepPhysics` in PhysicsEngine.ts. -/
def SAFE_LANDING_SPEED : ℚ := 5

/-- `stepPhysics` from PhysicsEngine.ts, translated statement by statement:
terminal guard, elapsed-time advance, engine cutoff check, vertical
acceleration, semi-implicit Euler integration, ground-collision detection and
crash / safe-landing classification.  The TS default `groundHeight = 0` is
passed explicitly by callers here. -/
def stepPhysics (state : PhysicsState) (config : PhysicsConfig) (dt : ℚ)
    (groundHeight : ℚ) : PhysicsState :=
  if state.hasCrashed || state.hasLandedSafely then state else
  let elapsedTime := state.elapsedTime + dt
  let isEngineOn : Bool := decide (elapsedTime < config.burnDuration)
  let az : ℚ := -config.gravity +
    (if isEngineOn then config.maxThrust / config.mass else 0)
  let thrust : Vec3 := if isEngineOn then (0, 0, config.maxThrust) else (0, 0, 0)
  let velocity : Vec3 :=
    (state.velocity.1, state.velocity.2.1, state.velocity.2.2 + az * dt)
  let position : Vec3 :=
    (state.position.1 + velocity.1 * dt,
     state.position.2.1 + velocity.2.1 * dt,
     state.position.2.2 + velocity.2.2 * dt)
  if position.2.2 ≤ groundHeight ∧ velocity.2.2 < 0 then
    let impactSpeed : ℚ := |velocity.2.2|
    if impactSpeed < SAFE_LANDING_SPEED then
      { position := (position.1, position.2.1, groundHeight)
        velocity := (0, 0, 0)
        thrust := thrust
        elapsedTime := elapsedTime
        isEngineOn := isEngineOn
        hasCrashed := false
        hasLandedSafely := true }
    else
      { position := (position.1, position.2.1, groundHeight)
        velocity := velocity
        thrust := thrust
        elapsedTime := elapsedTime
        isEngineOn := isEngineOn
        hasCrashed := true
        hasLandedSafely := false }
  else
    { position := position
      velocity := velocity
      thrust := thrust
      elapsedTime := elapsedTime
      isEngineOn := isEngineOn
      hasCrashed := false
      hasLandedSafely := false }

/-- One tick's inputs as passed to `stepPhysics` by the driver:
the config, the timestep, and the ground height. -/
structure StepInput where
  config : PhysicsConfig
  dt : ℚ
  groundHeight : ℚ

/-- Iterated ticking: fold `stepPhysics` over a sequence of tick inputs,
starting from a given state. -/
def runPhysics (s : PhysicsState) (inputs : List StepInput) : PhysicsState :=
  inputs.foldl (fun st i => stepPhysics st i.config i.dt i.groundHeight) s

/-- The state invariant of the integrator: the terminal flags are mutually
exclusive, and a safe landing implies the velocity has been zeroed. -/
def PhysicsInv (s : PhysicsState) : Prop :=
  ¬(s.hasCrashed = true ∧ s.hasLandedSafely = true) ∧
  (s.hasLandedSafely = true → s.velocity = (0, 0, 0))

/-- Spec-level description of one non-terminal tick of `stepPhysics`:
elapsed time advances by `dt`; the engine is on iff the new elapsed time is
below the burn duration; thrust is `[0,0,maxThrust]` when on and zero when
off; the vertical acceleration is thrust/mass (when on) minus gravity, acting
only on the altitude axis; integration is semi-implicit Euler; on ground
contact with downward velocity the altitude is clamped and exactly one
terminal flag is set, `hasLandedSafely` (with zeroed velocity) iff the impact
speed is below `SAFE_LANDING_SPEED`, `hasCrashed` otherwise. -/
def StepSpec (state : PhysicsState) (config : PhysicsConfig)
    (dt groundHeight : ℚ) : Prop :=
  let s' := stepPhysics state config dt groundHeight
  let engineOn : Bool := decide (state.elapsedTime + dt < config.burnDuration)
  let az : ℚ := (if engineOn then config.maxThrust / config.mass else 0) -
    config.gravity
  let v' : Vec3 := (state.velocity.1, state.velocity.2.1,
    state.velocity.2.2 + az * dt)
  let p' : Vec3 := (state.position.1 + v'.1 * dt,
    state.position.2.1 + v'.2.1 * dt, state.position.2.2 + v'.2.2 * dt)
  s'.elapsedTime = state.elapsedTime + dt ∧
  s'.isEngineOn = engineOn ∧
  s'.thrust = (if engineOn then ((0 : ℚ), (0 : ℚ), config.maxThrust)
    else ((0 : ℚ), (0 : ℚ), (0 : ℚ))) ∧
  (if p'.2.2 ≤ groundHeight ∧ v'.2.2 < 0 then
    s'.position = (p'.1, p'.2.1, groundHeight) ∧
    ((|v'.2.2| < SAFE_LANDING_SPEED ∧ s'.hasLandedSafely = true ∧
        s'.hasCrashed = false ∧ s'.velocity = (0, 0, 0)) ∨
      (SAFE_LANDING_SPEED ≤ |v'.2.2| ∧ s'.hasCrashed = true ∧
        s'.hasLandedSafely = false ∧ s'.velocity = v'))
  else
    s'.position = p' ∧ s'.velocity = v' ∧ s'.hasCrashed = false ∧
      s'.hasLandedSafely = false)

/-- A tick on a state with a terminal flag set preserves the invariant
trivially; a non-terminal tick can only produce states whose flags are
mutually exclusive and whose velocity is zeroed on a safe landing. -/
theorem stepPhysics_preserves_inv (s : PhysicsState) (c : PhysicsConfig)
    (dt gh : ℚ) (hs : PhysicsInv s) : PhysicsInv (stepPhysics s c dt gh) := by
  unfold stepPhysics
  by_cases hterm : (s.hasCrashed || s.hasLandedSafely) = true
  · rw [if_pos hterm]; exact hs
  · rw [if_neg hterm]
    dsimp only
    split_ifs <;> simp [PhysicsInv]

/-- The invariant is preserved by any sequence of ticks. -/
theorem runPhysics_preserves_inv (inputs : List StepInput) (s : PhysicsState)
    (hs : PhysicsInv s) : PhysicsInv (runPhysics s inputs) := by
  induction inputs generalizing s with
  | nil => exact hs
  | cons i rest ih =>
      exact ih _ (stepPhysics_preserves_inv _ _ _ _ hs)

/-- Sample config used to instantiate witnesses. -/
def cfg0 : PhysicsConfig :=
  { gravity := 0, mass := 1, maxThrust := 0, burnDuration := 10 }

/-- A non-terminal state one tick away from a crash (altitude 1, falling at
10 m/s with the engine burnt out), used to instantiate witnesses. -/
def crashStart : PhysicsState :=
  { position := (0, 0, 1), velocity := (0, 0, -10), thrust := (0, 0, 0),
    elapsedTime := 20, isEngineOn := false, hasCrashed := false,
    hasLandedSafely := false }

/-- An already-crashed state, used to instantiate witnesses. -/
def crashedState : PhysicsState := { createInitialState with hasCrashed := true }

/-- C7: for every non-terminal `PhysicsState`, config, timestep `dt > 0` and
ground height, `stepPhysics` advances elapsed time by `dt`; the engine is on
iff the new elapsed time is below the burn duration, with thrust
`[0,0,maxThrust]` when on and zero when off; vertical acceleration is
thrust/mass (when on) minus gravity, acting only on the altitude axis;
integration is semi-implicit Euler (velocity first, position from the new
velocity); and on ground contact with downward velocity the altitude is
clamped to the ground height and exactly one terminal flag is set —
`hasLandedSafely` with zeroed velocity iff the impact speed is below the
fixed safe-landing threshold, `hasCrashed` otherwise. -/
theorem claim_C7_step_spec (state : PhysicsState) (config : PhysicsConfig)
    (dt groundHeight : ℚ) (hc : state.hasCrashed = false)
    (hl : state.hasLandedSafely = false) (hdt : 0 < dt) :
    StepSpec state config dt groundHeight := by
  have haz : (if (decide (state.elapsedTime + dt < config.burnDuration)) then
      config.maxThrust / config.mass else 0) - config.gravity =
      -config.gravity +
      (if (decide (state.elapsedTime + dt < config.burnDuration)) then
      config.maxThrust / config.mass else 0) := by ring
  unfold StepSpec stepPhysics
  rw [hc, hl]
  simp only [Bool.or_self, Bool.false_eq_true, if_false, haz]
  split_ifs <;> simp_all [le_of_not_lt]

/-- Witness for C7: one engine-on tick from the initial state. -/
theorem claim_C7_witness :
    createInitialState.hasCrashed = false ∧
    createInitialState.hasLandedSafely = false ∧ (0 : ℚ) < 1 ∧
    StepSpec createInitialState cfg0 1 0 :=
  ⟨rfl, rfl, by norm_num,
    claim_C7_step_spec createInitialState cfg0 1 0 rfl rfl (by norm_num)⟩

/-- C8: `stepPhysics` on a state with `hasCrashed` or `hasLandedSafely` set
returns the state unchanged, for every config, timestep and ground height —
ticking a terminal state is a no-op, hence idempotent and deterministic. -/
theorem claim_C8_terminal_noop (s : PhysicsState) (config : PhysicsConfig)
    (dt groundHeight : ℚ)
    (h : s.hasCrashed = true ∨ s.hasLandedSafely = true) :
    stepPhysics s config dt groundHeight = s := by
  unfold stepPhysics
  rcases h with h | h <;> simp [h]

/-- Witness for C8: ticking a crashed state is a no-op. -/
theorem claim_C8_witness :
    (crashedState.hasCrashed = true ∨ crashedState.hasLandedSafely = true) ∧
    stepPhysics crashedState cfg0 1 0 = crashedState :=
  ⟨Or.inl rfl, claim_C8_terminal_noop crashedState cfg0 1 0 (Or.inl rfl)⟩

/-- C9: every state reachable from `createInitialState` by any sequence of
`stepPhysics` ticks satisfies the invariant (terminal flags never both true;
`hasLandedSafely` implies zero velocity), and at the tick that first sets a
terminal flag the altitude equals that tick's ground height. -/
theorem claim_C9_reachable_inv (inputs : List StepInput) :
    PhysicsInv (runPhysics createInitialState inputs) ∧
    ∀ (s : PhysicsState) (c : PhysicsConfig) (dt gh : ℚ),
      s.hasCrashed = false → s.hasLandedSafely = false →
      ((stepPhysics s c dt gh).hasCrashed = true ∨
        (stepPhysics s c dt gh).hasLandedSafely = true) →
      (stepPhysics s c dt gh).position.2.2 = gh := by
  constructor
  · exact runPhysics_preserves_inv inputs createInitialState
      (by simp [PhysicsInv, createInitialState])
  · intro s c dt gh hc hl hterm
    unfold stepPhysics at hterm ⊢
    rw [hc, hl] at hterm ⊢
    simp only [Bool.or_self, Bool.false_eq_true, if_false] at hterm ⊢
    split_ifs at hterm ⊢ <;> simp_all

/-- Witness for C9: the invariant after one concrete tick, and the
clamped-altitude property at a concrete crashing tick. -/
theorem claim_C9_witness :
    PhysicsInv (runPhysics createInitialState [⟨cfg0, 1, 0⟩]) ∧
    (stepPhysics crashStart cfg0 1 0).position.2.2 = 0 := by
  refine ⟨(claim_C9_reachable_inv [⟨cfg0, 1, 0⟩]).1, ?_⟩
  refine (claim_C9_reachable_inv []).2 crashStart cfg0 1 0 rfl rfl ?_
  left
  norm_num [stepPhysics, SAFE_LANDING_SPEED, crashStart, cfg0]

/-! ## GFoldSolver.ts — the conic program built by `solveLanding`

`solveLanding` creates scalar decision variables with the cvxjs `variable(1)`
factory, which hands out consecutive fresh ids, in the order
`Vx, Vy, Vz, Px, Py, Pz` (arrays of length `K+1`) then `Fx, Fy, Fz, gamma`
(arrays of length `K`).  The expression and constraint language below is the
fragment of cvxjs that `solveLanding` uses. -/

/-- The cvxjs expression fragment used by `solveLanding`: scalar variables,
scalar constants, `add`, `sub` and scalar multiplication `mul`. -/
inductive Expr where
  | var : ℕ → Expr
  | const : ℚ → Expr
  | add : Expr → Expr → Expr
  | sub : Expr → Expr → Expr
  | mul : ℚ → Expr → Expr
deriving DecidableEq, Repr

/-- Value of an expression under a primal assignment of the variables. -/
def Expr.eval (x : ℕ → ℚ) : Expr → ℚ
  | .var i => x i
  | .const c => c
  | .add a b => a.eval x + b.eval x
  | .sub a b => a.eval x - b.eval x
  | .mul c a => c * (a.eval x)

/-- The cvxjs constraint fragment used by `solveLanding`: `eq(a, b)`,
`ge(a, c)` and `le(a, c)` against a numeric bound, and the second-order-cone
constraint `soc(vstack(...), t)`, i.e. `‖v‖₂ ≤ t`. -/
inductive Constraint where
  | eq : Expr → Expr → Constraint
  | ge : Expr → ℚ → Constraint
  | le : Expr → ℚ → Constraint
  | soc : List Expr → Expr → Constraint
deriving DecidableEq, Repr

/-- Satisfaction of one constraint by a primal assignment.  The SOC
constraint `‖v‖₂ ≤ t` is stated square-free as
`Σ vᵢ² ≤ t² ∧ 0 ≤ t`, which is equivalent to the Euclidean-norm bound. -/
def Constraint.sat (x : ℕ → ℚ) : Constraint → Prop
  | .eq a b => a.eval x = b.eval x
  | .ge a c => c ≤ a.eval x
  | .le a c => a.eval x ≤ c
  | .soc v t => ((v.map (fun e => (e.eval x) ^ 2)).sum ≤ (t.eval x) ^ 2 ∧
      0 ≤ t.eval x)

instance (x : ℕ → ℚ) : (c : Constraint) → Decidable (c.sat x)
  | .eq a b => inferInstanceAs (Decidable (a.eval x = b.eval x))
  | .ge a c => inferInstanceAs (Decidable (c ≤ a.eval x))
  | .le a c => inferInstanceAs (Decidable (a.eval x ≤ c))
  | .soc v t => inferInstanceAs (Decidable (_ ∧ _))

/-- `LandingParams` from simulationStore.ts (the argument of
`solveLanding`). -/
structure LandingParams where
  K : ℕ
  h : ℚ
  g : ℚ
  m : ℚ
  F_max : ℚ
  P_min : ℚ
  alpha : ℚ
  p0 : Vec3
  v0 : Vec3
  p_target : Vec3

/-- Id of `Vx[k]`: the `Vx` array is created first. -/
def VxId (p : LandingParams) (k : ℕ) : ℕ := k

/-- Id of `Vy[k]`. -/
def VyId (p : LandingParams) (k : ℕ) : ℕ := (p.K + 1) + k

/-- Id of `Vz[k]`. -/
def VzId (p : LandingParams) (k : ℕ) : ℕ := 2 * (p.K + 1) + k

/-- Id of `Px[k]`. -/
def PxId (p : LandingParams) (k : ℕ) : ℕ := 3 * (p.K + 1) + k

/-- Id of `Py[k]`. -/
def PyId (p : LandingParams) (k : ℕ) : ℕ := 4 * (p.K + 1) + k

/-- Id of `Pz[k]`. -/
def PzId (p : LandingParams) (k : ℕ) : ℕ := 5 * (p.K + 1) + k

/-- Id of `Fx[k]`. -/
def FxId (p : LandingParams) (k : ℕ) : ℕ := 6 * (p.K + 1) + k

/-- Id of `Fy[k]`. -/
def FyId (p : LandingParams) (k : ℕ) : ℕ := 6 * (p.K + 1) + p.K + k

/-- Id of `Fz[k]`. -/
def FzId (p : LandingParams) (k : ℕ) : ℕ := 6 * (p.K + 1) + 2 * p.K + k

/-- Id of the auxiliary thrust-magnitude bound `gamma[k]`. -/
def gammaId (p : LandingParams) (k : ℕ) : ℕ := 6 * (p.K + 1) + 3 * p.K + k

/-- The `=== BOUNDARY CONDITIONS ===` block of `solveLanding`: twelve
equality constraints pushed in source order. -/
def boundaryConstraints (p : LandingParams) : List Constraint :=
  [ .eq (.var (VxId p 0)) (.const p.v0.1),
    .eq (.var (VyId p 0)) (.const p.v0.2.1),
    .eq (.var (VzId p 0)) (.const p.v0.2.2),
    .eq (.var (PxId p 0)) (.const p.p0.1),
    .eq (.var (PyId p 0)) (.const p.p0.2.1),
    .eq (.var (PzId p 0)) (.const p.p0.2.2),
    .eq (.var (VxId p p.K)) (.const 0),
    .eq (.var (VyId p p.K)) (.const 0),
    .eq (.var (VzId p p.K)) (.const 0),
    .eq (.var (PxId p p.K)) (.const p.p_target.1),
    .eq (.var (PyId p p.K)) (.const p.p_target.2.1),
    .eq (.var (PzId p p.K)) (.const p.p_target.2.2) ]

/-- The body of the `=== DYNAMICS ===` loop of `solveLanding` at step `k`:
velocity update (gravity on the `z` component only) and trapezoidal
position update. -/
def dynamicsAt (p : LandingParams) (k : ℕ) : List Constraint :=
  [ .eq (.var (VxId p (k + 1)))
      (.add (.var (VxId p k)) (.mul (p.h / p.m) (.var (FxId p k)))),
    .eq (.var (VyId p (k + 1)))
      (.add (.var (VyId p k)) (.mul (p.h / p.m) (.var (FyId p k)))),
    .eq (.var (VzId p (k + 1)))
      (.sub (.add (.var (VzId p k)) (.mul (p.h / p.m) (.var (FzId p k))))
        (.const (p.h * p.g))),
    .eq (.var (PxId p (k + 1)))
      (.add (.var (PxId p k))
        (.mul (p.h / 2) (.add (.var (VxId p k)) (.var (VxId p (k + 1)))))),
    .eq (.var (PyId p (k + 1)))
      (.add (.var (PyId p k))
        (.mul (p.h / 2) (.add (.var (VyId p k)) (.var (VyId p (k + 1)))))),
    .eq (.var (PzId p (k + 1)))
      (.add (.var (PzId p k))
        (.mul (p.h / 2) (.add (.var (VzId p k)) (.var (VzId p (k + 1)))))) ]

/-- The `=== DYNAMICS ===` loop, `k` from `0` to `K - 1`. -/
def dynamicsConstraints (p : LandingParams) : List Constraint :=
  (List.range p.K).flatMap (dynamicsAt p)

/-- The body of the `=== OPERATIONAL CONSTRAINTS ===` loop at step `k`:
minimum altitude `Pz[k] ≥ P_min` and monotone descent `Vz[k] ≤ 0`. -/
def operationalAt (p : LandingParams) (k : ℕ) : List Constraint :=
  [ .ge (.var (PzId p k)) p.P_min,
    .le (.var (VzId p k)) 0 ]

/-- The `=== OPERATIONAL CONSTRAINTS ===` loop, `k` from `0` to `K`. -/
def operationalConstraints (p : LandingParams) : List Constraint :=
  (List.range (p.K + 1)).flatMap (operationalAt p)

/-- The body of the thrust-constraint loop at step `k`: `Fz[k] ≥ 0`,
`gamma[k] ≥ 0`, the SOC constraint `‖vstack(Fx[k],Fy[k],Fz[k])‖₂ ≤ gamma[k]`
and the bound `gamma[k] ≤ F_max`. -/
def thrustAt (p : LandingParams) (k : ℕ) : List Constraint :=
  [ .ge (.var (FzId p k)) 0,
    .ge (.var (gammaId p k)) 0,
    .soc [.var (FxId p k), .var (FyId p k), .var (FzId p k)]
      (.var (gammaId p k)),
    .le (.var (gammaId p k)) p.F_max ]

/-- The thrust-constraint loop, `k` from `0` to `K - 1`. -/
def thrustConstraints (p : LandingParams) : List Constraint :=
  (List.range p.K).flatMap (thrustAt p)

/-- The full constraint list of the conic program built by `solveLanding`,
in source order.  Note that no constraint involving `p.alpha` (glide slope)
is ever pushed. -/
def solveLandingConstraints (p : LandingParams) : List Constraint :=
  boundaryConstraints p ++ dynamicsConstraints p ++
    operationalConstraints p ++ thrustConstraints p

/-- The external solver's contract on an optimal solve: the returned primal
assignment satisfies every constraint of the built program. -/
def Feasible (p : LandingParams) (x : ℕ → ℚ) : Prop :=
  ∀ c ∈ solveLandingConstraints p, c.sat x

/-! ## GFoldSolver.ts — solution extraction -/

/-- The cvxjs `Solution` as consumed by `solveLanding`: a status string, an
optional primal map from variable ids to value arrays, and an optional
objective value. -/
structure Solution where
  status : String
  primal : Option (ℕ → Option (List ℚ))
  value : Option ℚ

/-- `extractScalar` from GFoldSolver.ts: returns `0` when the primal map is
absent, the expression is not a variable, the id is missing from the map, or
the value array is empty; otherwise the first component. -/
def extractScalar (solution : Solution) (e : Expr) : ℚ :=
  match solution.primal with
  | none => 0
  | some primal =>
    match e with
    | .var id =>
      match primal id with
      | none => 0
      | some [] => 0
      | some (v :: _) => v
    | _ => 0

/-- The scalar a solution assigns to a variable id, as `solveLanding`'s
extraction loops read it back. -/
def primalAssignment (solution : Solution) : ℕ → ℚ :=
  fun id => extractScalar solution (.var id)

/-- `TrajectoryData` from simulationStore.ts. -/
structure TrajectoryData where
  positions : List Vec3
  velocities : List Vec3
  thrusts : List Vec3
  fuelUsed : ℚ
deriving DecidableEq, Repr

/-- The extraction loops at the end of `solveLanding`: positions and
velocities for `k` in `[0, K]`, thrusts for `k` in `[0, K)`, fuel from the
objective value (`solution.value ?? 0`). -/
def extractTrajectory (p : LandingParams) (solution : Solution) :
    TrajectoryData :=
  { positions := (List.range (p.K + 1)).map (fun k =>
      (extractScalar solution (.var (PxId p k)),
       extractScalar solution (.var (PyId p k)),
       extractScalar solution (.var (PzId p k))))
    velocities := (List.range (p.K + 1)).map (fun k =>
      (extractScalar solution (.var (VxId p k)),
       extractScalar solution (.var (VyId p k)),
       extractScalar solution (.var (VzId p k))))
    thrusts := (List.range p.K).map (fun k =>
      (extractScalar solution (.var (FxId p k)),
       extractScalar solution (.var (FyId p k)),
       extractScalar solution (.var (FzId p k))))
    fuelUsed := solution.value.getD 0 }

/-- The post-solve tail of `solveLanding`: throw unless the status is
`optimal`, else extract the trajectory. -/
def solveLanding (p : LandingParams) (solution : Solution) :
    Except String TrajectoryData :=
  if solution.status = "optimal" then
    Except.ok (extractTrajectory p solution)
  else
    Except.error ("Solver failed with status: " ++ solution.status)

/-- Componentwise addition of 3-vectors. -/
def vadd (a b : Vec3) : Vec3 := (a.1 + b.1, a.2.1 + b.2.1, a.2.2 + b.2.2)

/-- Componentwise subtraction of 3-vectors. -/
def vsub (a b : Vec3) : Vec3 := (a.1 - b.1, a.2.1 - b.2.1, a.2.2 - b.2.2)

/-- Scalar multiple of a 3-vector. -/
def vsmul (c : ℚ) (a : Vec3) : Vec3 := (c * a.1, c * a.2.1, c * a.2.2)

/-! ## Lemmas about the built program and the extraction -/

theorem getD_range_map {α : Type} (f : ℕ → α) (n k : ℕ) (hk : k < n) (d : α) :
    ((List.range n).map f).getD k d = f k := by
  rw [List.getD_eq_getElem?_getD]
  simp [List.getElem?_map, List.getElem?_range hk]

/-- Every boundary constraint of the built program is satisfied by a feasible
assignment. -/
theorem Feasible.sat_boundary {p : LandingParams} {x : ℕ → ℚ}
    (hf : Feasible p x) {c : Constraint} (hc : c ∈ boundaryConstraints p) :
    c.sat x :=
  hf c (List.mem_append_left _ (List.mem_append_left _
    (List.mem_append_left _ hc)))

/-- Every dynamics constraint at step `k < K` is satisfied by a feasible
assignment. -/
theorem Feasible.sat_dynamics {p : LandingParams} {x : ℕ → ℚ}
    (hf : Feasible p x) {k : ℕ} (hk : k < p.K) {c : Constraint}
    (hc : c ∈ dynamicsAt p k) : c.sat x := by
  refine hf c (List.mem_append_left _ (List.mem_append_left _
    (List.mem_append_right _ ?_)))
  simp only [dynamicsConstraints, List.mem_flatMap, List.mem_range]
  exact ⟨k, hk, hc⟩

/-- Every operational constraint at step `k ≤ K` is satisfied by a feasible
assignment. -/
theorem Feasible.sat_operational {p : LandingParams} {x : ℕ → ℚ}
    (hf : Feasible p x) {k : ℕ} (hk : k < p.K + 1) {c : Constraint}
    (hc : c ∈ operationalAt p k) : c.sat x := by
  refine hf c (List.mem_append_left _ (List.mem_append_right _ ?_))
  simp only [operationalConstraints, List.mem_flatMap, List.mem_range]
  exact ⟨k, hk, hc⟩

/-- Every thrust constraint at step `k < K` is satisfied by a feasible
assignment. -/
theorem Feasible.sat_thrust {p : LandingParams} {x : ℕ → ℚ}
    (hf : Feasible p x) {k : ℕ} (hk : k < p.K) {c : Constraint}
    (hc : c ∈ thrustAt p k) : c.sat x := by
  refine hf c (List.mem_append_right _ ?_)
  simp only [thrustConstraints, List.mem_flatMap, List.mem_range]
  exact ⟨k, hk, hc⟩

/-- The extracted velocity sample at index `i ≤ K`, componentwise. -/
theorem extract_velocity_eq (p : LandingParams) (sol : Solution) (i : ℕ)
    (hi : i < p.K + 1) :
    (extractTrajectory p sol).velocities.getD i (0, 0, 0) =
      (primalAssignment sol (VxId p i), primalAssignment sol (VyId p i),
        primalAssignment sol (VzId p i)) :=
  getD_range_map _ _ _ hi _

/-- The extracted position sample at index `i ≤ K`, componentwise. -/
theorem extract_position_eq (p : LandingParams) (sol : Solution) (i : ℕ)
    (hi : i < p.K + 1) :
    (extractTrajectory p sol).positions.getD i (0, 0, 0) =
      (primalAssignment sol (PxId p i), primalAssignment sol (PyId p i),
        primalAssignment sol (PzId p i)) :=
  getD_range_map _ _ _ hi _

/-- The extracted thrust sample at index `i < K`, componentwise. -/
theorem extract_thrust_eq (p : LandingParams) (sol : Solution) (i : ℕ)
    (hi : i < p.K) :
    (extractTrajectory p sol).thrusts.getD i (0, 0, 0) =
      (primalAssignment sol (FxId p i), primalAssignment sol (FyId p i),
        primalAssignment sol (FzId p i)) :=
  getD_range_map _ _ _ hi _

/-- C1: the built conic program contains the boundary equality constraints,
and for every optimal solve (modelled by a primal assignment satisfying every
built constraint) the extracted trajectory satisfies them exactly:
`V[0] = v0`, `P[0] = p0`, `V[K] = 0` and `P[K] = p_target`. -/
theorem claim_C1_boundary (p : LandingParams) (sol : Solution)
    (hf : Feasible p (primalAssignment sol)) :
    (∀ c ∈ boundaryConstraints p, c ∈ solveLandingConstraints p) ∧
    (extractTrajectory p sol).velocities.getD 0 (0, 0, 0) = p.v0 ∧
    (extractTrajectory p sol).positions.getD 0 (0, 0, 0) = p.p0 ∧
    (extractTrajectory p sol).velocities.getD p.K (0, 0, 0) = (0, 0, 0) ∧
    (extractTrajectory p sol).positions.getD p.K (0, 0, 0) = p.p_target := by
  have hmem : ∀ c ∈ boundaryConstraints p, c ∈ solveLandingConstraints p :=
    fun c hc => List.mem_append_left _ (List.mem_append_left _
      (List.mem_append_left _ hc))
  have key : ∀ c ∈ boundaryConstraints p,
      Constraint.sat (primalAssignment sol) c :=
    fun c hc => Feasible.sat_boundary hf hc
  simp only [boundaryConstraints, List.mem_cons, List.not_mem_nil, or_false,
    forall_eq_or_imp, forall_eq, Constraint.sat, Expr.eval] at key
  obtain ⟨k1, k2, k3, k4, k5, k6, k7, k8, k9, k10, k11, k12⟩ := key
  refine ⟨hmem, ?_, ?_, ?_, ?_⟩ <;>
    simp only [extractTrajectory] <;>
    rw [getD_range_map _ _ _ (by omega)]
  · show (primalAssignment sol (VxId p 0), primalAssignment sol (VyId p 0),
      primalAssignment sol (VzId p 0)) = p.v0
    rw [k1, k2, k3]
  · show (primalAssignment sol (PxId p 0), primalAssignment sol (PyId p 0),
      primalAssignment sol (PzId p 0)) = p.p0
    rw [k4, k5, k6]
  · show (primalAssignment sol (VxId p p.K), primalAssignment sol (VyId p p.K),
      primalAssignment sol (VzId p p.K)) = ((0 : ℚ), (0 : ℚ), (0 : ℚ))
    rw [k7, k8, k9]
  · show (primalAssignment sol (PxId p p.K), primalAssignment sol (PyId p p.K),
      primalAssignment sol (PzId p p.K)) = p.p_target
    rw [k10, k11, k12]

/-- C2: for every `k < K` the built program contains the exact dynamics
equality constraints, and the trajectory extracted from a feasible solve
satisfies `V[k+1] = V[k] + (h/m)·F[k] − [0,0,h·g]` (gravity only on the
altitude axis) and the trapezoidal update
`P[k+1] = P[k] + (h/2)·(V[k] + V[k+1])`. -/
theorem claim_C2_dynamics (p : LandingParams) (sol : Solution)
    (hf : Feasible p (primalAssignment sol)) (k : ℕ) (hk : k < p.K) :
    (∀ c ∈ dynamicsAt p k, c ∈ solveLandingConstraints p) ∧
    (extractTrajectory p sol).velocities.getD (k + 1) (0, 0, 0) =
      vsub (vadd ((extractTrajectory p sol).velocities.getD k (0, 0, 0))
          (vsmul (p.h / p.m)
            ((extractTrajectory p sol).thrusts.getD k (0, 0, 0))))
        (0, 0, p.h * p.g) ∧
    (extractTrajectory p sol).positions.getD (k + 1) (0, 0, 0) =
      vadd ((extractTrajectory p sol).positions.getD k (0, 0, 0))
        (vsmul (p.h / 2)
          (vadd ((extractTrajectory p sol).velocities.getD k (0, 0, 0))
            ((extractTrajectory p sol).velocities.getD (k + 1) (0, 0, 0)))) := by
  have key : ∀ c ∈ dynamicsAt p k, Constraint.sat (primalAssignment sol) c :=
    fun c hc => Feasible.sat_dynamics hf hk hc
  simp only [dynamicsAt, List.mem_cons, List.not_mem_nil, or_false,
    forall_eq_or_imp, forall_eq, Constraint.sat, Expr.eval] at key
  obtain ⟨d1, d2, d3, d4, d5, d6⟩ := key
  have hmem : ∀ c ∈ dynamicsAt p k, c ∈ solveLandingConstraints p := by
    intro c hc
    refine List.mem_append_left _ (List.mem_append_left _
      (List.mem_append_right _ ?_))
    simp only [dynamicsConstraints, List.mem_flatMap, List.mem_range]
    exact ⟨k, hk, hc⟩
  refine ⟨hmem, ?_, ?_⟩
  · rw [extract_velocity_eq _ _ _ (by omega),
      extract_velocity_eq _ _ _ (by omega), extract_thrust_eq _ _ _ hk]
    simp only [vadd, vsub, vsmul, Prod.mk.injEq]
    refine ⟨by rw [d1]; try ring, by rw [d2]; try ring, by rw [d3]; try ring⟩
  · rw [extract_position_eq _ _ _ (by omega),
      extract_position_eq _ _ _ (by omega),
      extract_velocity_eq _ _ _ (by omega),
      extract_velocity_eq _ _ _ (by omega)]
    simp only [vadd, vsmul, Prod.mk.injEq]
    refine ⟨by rw [d4], by rw [d5], by rw [d6]⟩

/-- C3: for every `k < K` the built program contains `Fz[k] ≥ 0` and the
second-order-cone thrust bound (through the auxiliary `gamma[k]`), and the
trajectory extracted from a feasible solve satisfies `Fz[k] ≥ 0` and the true
Euclidean-norm bound `‖F[k]‖₂ ≤ F_max`. -/
theorem claim_C3_thrust (p : LandingParams) (sol : Solution)
    (hf : Feasible p (primalAssignment sol)) (k : ℕ) (hk : k < p.K) :
    (∀ c ∈ thrustAt p k, c ∈ solveLandingConstraints p) ∧
    0 ≤ ((extractTrajectory p sol).thrusts.getD k (0, 0, 0)).2.2 ∧
    Real.sqrt
        ((((extractTrajectory p sol).thrusts.getD k (0, 0, 0)).1 ^ 2 +
          ((extractTrajectory p sol).thrusts.getD k (0, 0, 0)).2.1 ^ 2 +
          ((extractTrajectory p sol).thrusts.getD k (0, 0, 0)).2.2 ^ 2 : ℚ)) ≤
      (p.F_max : ℝ) := by
  have key : ∀ c ∈ thrustAt p k, Constraint.sat (primalAssignment sol) c :=
    fun c hc => Feasible.sat_thrust hf hk hc
  simp only [thrustAt, List.mem_cons, List.not_mem_nil, or_false,
    forall_eq_or_imp, forall_eq, Constraint.sat, Expr.eval, List.map_cons,
    List.map_nil, List.sum_cons, List.sum_nil, add_zero] at key
  obtain ⟨t1, t2, ⟨t3, t4⟩, t5⟩ := key
  have hmem : ∀ c ∈ thrustAt p k, c ∈ solveLandingConstraints p := by
    intro c hc
    refine List.mem_append_right _ ?_
    simp only [thrustConstraints, List.mem_flatMap, List.mem_range]
    exact ⟨k, hk, hc⟩
  rw [extract_thrust_eq _ _ _ hk]
  refine ⟨hmem, t1, ?_⟩
  have hFm : (0 : ℚ) ≤ p.F_max := le_trans t2 t5
  have hsq : (primalAssignment sol (FxId p k)) ^ 2 +
      (primalAssignment sol (FyId p k)) ^ 2 +
      (primalAssignment sol (FzId p k)) ^ 2 ≤ p.F_max ^ 2 := by
    calc (primalAssignment sol (FxId p k)) ^ 2 +
        (primalAssignment sol (FyId p k)) ^ 2 +
        (primalAssignment sol (FzId p k)) ^ 2
        ≤ (primalAssignment sol (gammaId p k)) ^ 2 := by
          rw [add_assoc]; exact t3
      _ ≤ p.F_max ^ 2 := pow_le_pow_left₀ t2 t5 2
  calc Real.sqrt (((primalAssignment sol (FxId p k)) ^ 2 +
        (primalAssignment sol (FyId p k)) ^ 2 +
        (primalAssignment sol (FzId p k)) ^ 2 : ℚ))
      ≤ Real.sqrt ((p.F_max : ℝ) ^ 2) := by
        apply Real.sqrt_le_sqrt
        push_cast
        exact_mod_cast hsq
    _ = (p.F_max : ℝ) := Real.sqrt_sq (by exact_mod_cast hFm)

/-- The zero-gravity test scenario: `K = 1`, unit mass and step, all boundary
data zero.  The all-zero primal is feasible for it. -/
def zeroParams : LandingParams :=
  { K := 1, h := 1, g := 0, m := 1, F_max := 1, P_min := 0, alpha := 0,
    p0 := (0, 0, 0), v0 := (0, 0, 0), p_target := (0, 0, 0) }

/-- An optimal solution whose primal assigns `[0]` to every variable id. -/
def zeroSolution : Solution :=
  { status := "optimal", primal := some (fun _ => some [0]), value := some 0 }

/-- The all-zero primal satisfies every constraint of the program built for
`zeroParams`. -/
theorem zeroFeasible : Feasible zeroParams (primalAssignment zeroSolution) := by
  unfold Feasible
  simp only [zeroParams, solveLandingConstraints, boundaryConstraints,
    dynamicsConstraints, dynamicsAt, operationalConstraints, operationalAt,
    thrustConstraints, thrustAt, VxId, VyId, VzId, PxId, PyId, PzId, FxId,
    FyId, FzId, gammaId, List.range_succ, List.range_zero, List.flatMap_cons,
    List.flatMap_nil, List.append_nil, List.nil_append, List.cons_append,
    List.forall_mem_cons, List.forall_mem_nil, and_true]
  norm_num [Constraint.sat, Expr.eval, primalAssignment, extractScalar,
    zeroSolution]

/-- Witness for C1: the zero scenario with the all-zero optimal primal. -/
theorem claim_C1_witness :
    Feasible zeroParams (primalAssignment zeroSolution) ∧
    ((∀ c ∈ boundaryConstraints zeroParams,
        c ∈ solveLandingConstraints zeroParams) ∧
      (extractTrajectory zeroParams zeroSolution).velocities.getD 0 (0, 0, 0) =
        zeroParams.v0 ∧
      (extractTrajectory zeroParams zeroSolution).positions.getD 0 (0, 0, 0) =
        zeroParams.p0 ∧
      (extractTrajectory zeroParams zeroSolution).velocities.getD
        zeroParams.K (0, 0, 0) = (0, 0, 0) ∧
      (extractTrajectory zeroParams zeroSolution).positions.getD
        zeroParams.K (0, 0, 0) = zeroParams.p_target) :=
  ⟨zeroFeasible, claim_C1_boundary zeroParams zeroSolution zeroFeasible⟩

/-- Witness for C2: the dynamics recurrences at `k = 0` of the zero
scenario. -/
theorem claim_C2_witness :
    Feasible zeroParams (primalAssignment zeroSolution) ∧ 0 < zeroParams.K ∧
    ((∀ c ∈ dynamicsAt zeroParams 0, c ∈ solveLandingConstraints zeroParams) ∧
      (extractTrajectory zeroParams zeroSolution).velocities.getD 1 (0, 0, 0) =
        vsub (vadd ((extractTrajectory zeroParams zeroSolution).velocities.getD
            0 (0, 0, 0))
          (vsmul (zeroParams.h / zeroParams.m)
            ((extractTrajectory zeroParams zeroSolution).thrusts.getD 0
              (0, 0, 0))))
          (0, 0, zeroParams.h * zeroParams.g) ∧
      (extractTrajectory zeroParams zeroSolution).positions.getD 1 (0, 0, 0) =
        vadd ((extractTrajectory zeroParams zeroSolution).positions.getD 0
            (0, 0, 0))
          (vsmul (zeroParams.h / 2)
            (vadd ((extractTrajectory zeroParams zeroSolution).velocities.getD
                0 (0, 0, 0))
              ((extractTrajectory zeroParams zeroSolution).velocities.getD 1
                (0, 0, 0))))) :=
  ⟨zeroFeasible, Nat.one_pos,
    claim_C2_dynamics zeroParams zeroSolution zeroFeasible 0 Nat.one_pos⟩

/-- Witness for C3: the thrust bounds at `k = 0` of the zero scenario. -/
theorem claim_C3_witness :
    Feasible zeroParams (primalAssignment zeroSolution) ∧ 0 < zeroParams.K ∧
    ((∀ c ∈ thrustAt zeroParams 0, c ∈ solveLandingConstraints zeroParams) ∧
      0 ≤ ((extractTrajectory zeroParams zeroSolution).thrusts.getD 0
        (0, 0, 0)).2.2 ∧
      Real.sqrt
          ((((extractTrajectory zeroParams zeroSolution).thrusts.getD 0
              (0, 0, 0)).1 ^ 2 +
            ((extractTrajectory zeroParams zeroSolution).thrusts.getD 0
              (0, 0, 0)).2.1 ^ 2 +
            ((extractTrajectory zeroParams zeroSolution).thrusts.getD 0
              (0, 0, 0)).2.2 ^ 2 : ℚ)) ≤ (zeroParams.F_max : ℝ)) :=
  ⟨zeroFeasible, Nat.one_pos,
    claim_C3_thrust zeroParams zeroSolution zeroFeasible 0 Nat.one_pos⟩

/-! ## C4 — absence of a glide-slope constraint -/

/-- Whether an expression mentions the variable with id `j`. -/
def Expr.mentions : Expr → ℕ → Bool
  | .var i, j => i == j
  | .const _, _ => false
  | .add a b, j => a.mentions j || b.mentions j
  | .sub a b, j => a.mentions j || b.mentions j
  | .mul _ a, j => a.mentions j

/-- Whether a constraint is a second-order-cone constraint. -/
def Constraint.isSoc : Constraint → Bool
  | .soc _ _ => true
  | _ => false

/-- Whether a constraint mentions the variable with id `j`. -/
def Constraint.mentionsVar : Constraint → ℕ → Bool
  | .eq a b, j => a.mentions j || b.mentions j
  | .ge a _, j => a.mentions j
  | .le a _, j => a.mentions j
  | .soc v t, j => v.any (fun e => e.mentions j) || t.mentions j

/-- The ids of all position variables `Px[k], Py[k], Pz[k]`, `k ≤ K`. -/
def positionIds (p : LandingParams) : List ℕ :=
  (List.range (p.K + 1)).flatMap (fun k => [PxId p k, PyId p k, PzId p k])

/-- A (scaled-down) Mars-landing scenario that supplies a positive
glide-slope half-angle `alpha`, exercising the optional-constraint path. -/
def marsParams : LandingParams :=
  { K := 2, h := 1, g := 372/100, m := 120000, F_max := 2200000, P_min := 0,
    alpha := 1/10, p0 := (600, 100, 1500), v0 := (-80, -20, -120),
    p_target := (0, 0, 0) }

/-- Counterexample to C4: for a concrete scenario that supplies
`alpha > 0`, the program built by `solveLanding` contains no second-order-cone
constraint mentioning any position variable — in particular no glide-slope
cone linking the horizontal and vertical position components.  The claimed
glide-slope constraint would be exactly such a constraint. -/
theorem claim_C4_counterexample :
    (0 : ℚ) < marsParams.alpha ∧
    (solveLandingConstraints marsParams).filter
      (fun c => c.isSoc && (positionIds marsParams).any
        (fun j => c.mentionsVar j)) = [] := by
  constructor
  · norm_num [marsParams]
  · rfl

/-- C4 (amended): `solveLanding` ignores `alpha` entirely — the built
program is identical for every value of `alpha`, and none of its
second-order-cone constraints mentions a position variable (its only SOC
constraints are the thrust-magnitude cones over `F` and `gamma`
variables), so no glide-slope constraint is ever added. -/
theorem claim_C4_no_glide_slope (p : LandingParams) (a : ℚ) :
    solveLandingConstraints { p with alpha := a } = solveLandingConstraints p ∧
    ∀ c ∈ solveLandingConstraints p, c.isSoc = true →
      ∀ j ∈ positionIds p, c.mentionsVar j = false := by
  refine ⟨rfl, ?_⟩
  intro c hc hsoc j hj
  have hj6 : 3 * (p.K + 1) ≤ j ∧ j < 6 * (p.K + 1) := by
    simp only [positionIds, List.mem_flatMap, List.mem_range, List.mem_cons,
      List.not_mem_nil, or_false] at hj
    obtain ⟨k, hk, rfl | rfl | rfl⟩ := hj <;>
      simp only [PxId, PyId, PzId] <;> omega
  rcases List.mem_append.1 hc with h | hT
  · rcases List.mem_append.1 h with h2 | hO
    · rcases List.mem_append.1 h2 with hB | hD
      · simp only [boundaryConstraints, List.mem_cons, List.not_mem_nil,
          or_false] at hB
        rcases hB with rfl|rfl|rfl|rfl|rfl|rfl|rfl|rfl|rfl|rfl|rfl|rfl <;>
          simp [Constraint.isSoc] at hsoc
      · simp only [dynamicsConstraints, List.mem_flatMap, List.mem_range] at hD
        obtain ⟨k, hk, hD⟩ := hD
        simp only [dynamicsAt, List.mem_cons, List.not_mem_nil, or_false] at hD
        rcases hD with rfl|rfl|rfl|rfl|rfl|rfl <;>
          simp [Constraint.isSoc] at hsoc
    · simp only [operationalConstraints, List.mem_flatMap, List.mem_range] at hO
      obtain ⟨k, hk, hO⟩ := hO
      simp only [operationalAt, List.mem_cons, List.not_mem_nil, or_false] at hO
      rcases hO with rfl|rfl <;> simp [Constraint.isSoc] at hsoc
  · simp only [thrustConstraints, List.mem_flatMap, List.mem_range] at hT
    obtain ⟨k, hk, hT⟩ := hT
    simp only [thrustAt, List.mem_cons, List.not_mem_nil, or_false] at hT
    rcases hT with rfl|rfl|rfl|rfl <;> try simp [Constraint.isSoc] at hsoc
    simp only [Constraint.mentionsVar, Expr.mentions, List.any_cons,
      List.any_nil, Bool.or_false, Bool.or_eq_false_iff, beq_eq_false_iff_ne]
    simp only [FxId, FyId, FzId, gammaId]
    omega

/-- Witness for the amended C4: `alpha`-independence at a concrete scenario
and the SOC thrust constraint at `k = 0` not mentioning `Px[0]`. -/
theorem claim_C4_witness :
    solveLandingConstraints { marsParams with alpha := 1/2 } =
      solveLandingConstraints marsParams ∧
    Constraint.mentionsVar
      (Constraint.soc [Expr.var (FxId marsParams 0),
        Expr.var (FyId marsParams 0), Expr.var (FzId marsParams 0)]
        (Expr.var (gammaId marsParams 0)))
      (PxId marsParams 0) = false := by
  refine ⟨(claim_C4_no_glide_slope marsParams (1/2)).1, ?_⟩
  exact (claim_C4_no_glide_slope marsParams (1/2)).2
    (Constraint.soc [Expr.var (FxId marsParams 0),
      Expr.var (FyId marsParams 0), Expr.var (FzId marsParams 0)]
      (Expr.var (gammaId marsParams 0)))
    (by decide) rfl (PxId marsParams 0) (by decide)

/-! ## C5 — extraction silently zero-fills missing primal data -/

/-- An "optimal" solution whose primal map has no entry for any id. -/
def missingSolution : Solution :=
  { status := "optimal", primal := some (fun _ => none), value := some 0 }

/-- An "optimal" solution whose primal entries are all empty arrays
(fewer components than expected). -/
def emptySolution : Solution :=
  { status := "optimal", primal := some (fun _ => some []), value := some 0 }

/-- Counterexample to C5: with its variable id absent from the primal map
(or the value array empty), `extractScalar` returns `0` instead of failing,
and extraction still succeeds, producing a fully zero-filled trajectory that
`solveLanding` returns as a success value. -/
theorem claim_C5_counterexample :
    extractScalar missingSolution (Expr.var 0) = 0 ∧
    extractScalar emptySolution (Expr.var 0) = 0 ∧
    (extractTrajectory zeroParams missingSolution).positions =
      [(0, 0, 0), (0, 0, 0)] ∧
    solveLanding zeroParams missingSolution =
      Except.ok (extractTrajectory zeroParams missingSolution) :=
  ⟨rfl, rfl, rfl, rfl⟩

/-- C5 (amended): missing or malformed primal entries are silently
zero-filled as normal behavior — `extractScalar` returns `0` whenever the
primal map is absent, the id is missing, the value array is empty, or the
expression is not a variable; extraction has no failure path. -/
theorem claim_C5_zero_fill (st : String) (v : Option ℚ)
    (pm : ℕ → Option (List ℚ)) (i : ℕ)
    (h : pm i = none ∨ pm i = some []) :
    extractScalar { status := st, primal := none, value := v }
      (Expr.var i) = 0 ∧
    extractScalar { status := st, primal := some pm, value := v }
      (Expr.var i) = 0 ∧
    ∀ e : Expr, (∀ j : ℕ, e ≠ Expr.var j) →
      extractScalar { status := st, primal := some pm, value := v } e = 0 := by
  refine ⟨rfl, ?_, ?_⟩
  · rcases h with h | h <;> simp [extractScalar, h]
  · intro e he
    cases e with
    | var j => exact absurd rfl (he j)
    | const c => rfl
    | add a b => rfl
    | sub a b => rfl
    | mul c a => rfl

/-- The everywhere-missing primal map. -/
def noneMap : ℕ → Option (List ℚ) := fun _ => none

/-- An "optimal" solution carrying no primal map at all. -/
def noPrimalSolution : Solution :=
  { status := "optimal", primal := none, value := none }

/-- An "optimal" solution whose primal map is `noneMap`. -/
def noneMapSolution : Solution :=
  { status := "optimal", primal := some noneMap, value := none }

/-- Witness for the amended C5 at concrete malformed solutions. -/
theorem claim_C5_witness :
    (noneMap 0 = none ∨ noneMap 0 = some []) ∧
    (extractScalar noPrimalSolution (Expr.var 0) = 0 ∧
      extractScalar noneMapSolution (Expr.var 0) = 0 ∧
      ∀ e : Expr, (∀ j : ℕ, e ≠ Expr.var j) →
        extractScalar noneMapSolution e = 0) :=
  ⟨Or.inl rfl, claim_C5_zero_fill "optimal" none noneMap 0 (Or.inl rfl)⟩

/-! ## C6 — no parameter validation before the solve -/

/-- Parameters violating every precondition of C6: `K = 0 < 1`, `h = 0`,
`m = -1` and `F_max = 0`. -/
def badParams : LandingParams :=
  { K := 0, h := 0, g := 372/100, m := -1, F_max := 0, P_min := 0, alpha := 0,
    p0 := (0, 0, 100), v0 := (0, 0, 0), p_target := (0, 0, 0) }

/-- Counterexample to C6: with `K < 1` and `m, h, F_max ≤ 0`, building does
not fail — the full constraint list (14 constraints for `K = 0`) is still
produced and handed to the solver, and an "optimal" response is still
extracted and returned as a success value. -/
theorem claim_C6_counterexample :
    badParams.K < 1 ∧ badParams.m ≤ 0 ∧ badParams.h ≤ 0 ∧
    badParams.F_max ≤ 0 ∧
    (solveLandingConstraints badParams).length = 14 ∧
    solveLanding badParams zeroSolution =
      Except.ok (extractTrajectory badParams zeroSolution) := by
  refine ⟨Nat.zero_lt_one, by norm_num [badParams], by norm_num [badParams],
    by norm_num [badParams], rfl, rfl⟩

theorem length_flatMap_const {α : Type} (f : ℕ → List α) (m n : ℕ)
    (hf : ∀ k, (f k).length = m) :
    ((List.range n).flatMap f).length = n * m := by
  induction n with
  | zero => simp
  | succ n ih =>
      rw [List.range_succ, List.flatMap_append, List.length_append, ih]
      simp [hf]
      ring

/-- C6 (amended): `solveLanding` never validates its parameters — for every
`LandingParams`, including `K < 1` or nonpositive `m`, `h`, `F_max`, the
constraint list is built (with `12·K + 14` constraints) and the solver is
always invoked; the only reported failure is a non-`optimal` solver
status. -/
theorem claim_C6_no_validation (p : LandingParams) (sol : Solution) :
    (solveLandingConstraints p).length = 12 * p.K + 14 ∧
    (sol.status = "optimal" →
      solveLanding p sol = Except.ok (extractTrajectory p sol)) ∧
    (sol.status ≠ "optimal" →
      solveLanding p sol =
        Except.error ("Solver failed with status: " ++ sol.status)) := by
  refine ⟨?_, ?_, ?_⟩
  · have h1 : (dynamicsConstraints p).length = p.K * 6 :=
      length_flatMap_const _ 6 _ (fun k => rfl)
    have h2 : (operationalConstraints p).length = (p.K + 1) * 2 :=
      length_flatMap_const _ 2 _ (fun k => rfl)
    have h3 : (thrustConstraints p).length = p.K * 4 :=
      length_flatMap_const _ 4 _ (fun k => rfl)
    simp only [solveLandingConstraints, List.length_append, h1, h2, h3,
      boundaryConstraints, List.length_cons, List.length_nil]
    omega
  · intro h
    simp [solveLanding, h]
  · intro h
    simp [solveLanding, h]

/-- A non-optimal solver response. -/
def infeasibleSolution : Solution :=
  { status := "infeasible", primal := none, value := none }

/-- Witness for the amended C6: the invalid parameters still yield a built
program, and a non-optimal status is the only error path. -/
theorem claim_C6_witness :
    (solveLandingConstraints badParams).length = 12 * badParams.K + 14 ∧
    infeasibleSolution.status ≠ "optimal" ∧
    solveLanding badParams infeasibleSolution =
      Except.error ("Solver failed with status: infeasible") :=
  ⟨(claim_C6_no_validation badParams infeasibleSolution).1, by decide,
    (claim_C6_no_validation badParams infeasibleSolution).2.2 (by decide)⟩

/-! ## Scene.tsx — playback interpolation

The playback branch of `Scene` (taken when a trajectory with at least one
position sample is present) computes `currentIndex = min(⌊t⌋, len-1)`,
`nextIndex = min(currentIndex+1, len-1)`, linearly interpolates the position
between the two bracketing samples, and takes velocity and thrust
piecewise-constant at `currentIndex` (with fallbacks `params.v0` and
`[0,0,0]` when `currentIndex` is not below the respective array length).
JavaScript array access at an out-of-range index yields `undefined`,
modelled as `none`. -/

/-- JavaScript-style list indexing with an integer index: `undefined`
(`none`) outside the valid range. -/
def jsIndex (l : List Vec3) (i : ℤ) : Option Vec3 :=
  if 0 ≤ i then l[i.toNat]? else none

/-- The rocket state produced for one playback instant by `Scene`. -/
structure SceneOutput where
  rocketPosition : Option Vec3
  rocketVelocity : Option Vec3
  thrustVector : Option Vec3
deriving DecidableEq, Repr

/-- Componentwise linear interpolation `p1 + t·(p2 − p1)` as written in
`Scene`. -/
def lerpVec (a b : Vec3) (t : ℚ) : Vec3 :=
  (a.1 + t * (b.1 - a.1), a.2.1 + t * (b.2.1 - a.2.1),
   a.2.2 + t * (b.2.2 - a.2.2))

/-- The trajectory-playback branch of `Scene` from Scene.tsx, translated
statement by statement. -/
def scenePlayback (traj : TrajectoryData) (v0 : Vec3) (playbackTime : ℚ) :
    SceneOutput :=
  let len : ℤ := traj.positions.length
  let currentIndex : ℤ := min ⌊playbackTime⌋ (len - 1)
  let nextIndex : ℤ := min (currentIndex + 1) (len - 1)
  let t : ℚ := playbackTime - currentIndex
  let p1 := jsIndex traj.positions currentIndex
  let p2 := jsIndex traj.positions nextIndex
  { rocketPosition :=
      match p1, p2 with
      | some a, some b => some (lerpVec a b t)
      | _, _ => none
    rocketVelocity :=
      if currentIndex < (traj.velocities.length : ℤ) then
        jsIndex traj.velocities currentIndex
      else some v0
    thrustVector :=
      if currentIndex < (traj.thrusts.length : ℤ) then
        jsIndex traj.thrusts currentIndex
      else some (0, 0, 0) }

/-- A two-sample trajectory (`K = 1`) with distinct position, velocity and
thrust values, used to exhibit the C10 counterexample. -/
def trajA : TrajectoryData :=
  { positions := [(0, 0, 0), (6, 6, 6)], velocities := [(1, 1, 1), (2, 2, 2)],
    thrusts := [(3, 3, 3)], fuelUsed := 0 }

/-- Counterexample to C10: the bracketing indices are clamped only at the
upper end.  At `t = -1` the index `min(⌊t⌋, len-1) = -1` is out of range and
the produced position is `undefined` (`none`), not the clamped first sample
`P[0]`; and at `t = 1` (the final sample of a two-sample trajectory) the
thrust is the `[0,0,0]` fallback, not the value at the lower bracketing
index of the thrust array. -/
theorem claim_C10_counterexample :
    trajA.positions.length = 2 ∧
    (scenePlayback trajA (0, 0, 0) (-1)).rocketPosition = none ∧
    (scenePlayback trajA (0, 0, 0) (-1)).rocketPosition ≠
      some ((0 : ℚ), (0 : ℚ), (0 : ℚ)) ∧
    (scenePlayback trajA (0, 0, 0) 1).thrustVector = some (0, 0, 0) ∧
    (scenePlayback trajA (0, 0, 0) 1).thrustVector ≠
      some ((3 : ℚ), (3 : ℚ), (3 : ℚ)) := by
  have hm1 : ⌊(-1 : ℚ)⌋ = -1 := by norm_num
  have h1 : ⌊(1 : ℚ)⌋ = 1 := by norm_num
  refine ⟨rfl, ?_, ?_, ?_, ?_⟩
  · norm_num [scenePlayback, jsIndex, trajA, hm1]
  · norm_num [scenePlayback, jsIndex, trajA, hm1]
    exact fun h => Option.noConfusion h
  · norm_num [scenePlayback, jsIndex, trajA, h1]
  · norm_num [scenePlayback, jsIndex, trajA, h1, Prod.ext_iff]

theorem jsIndex_eq_getD (l : List Vec3) (i : ℤ) (h0 : 0 ≤ i)
    (hl : i.toNat < l.length) :
    jsIndex l i = some (l.getD i.toNat (0, 0, 0)) := by
  unfold jsIndex
  rw [if_pos h0, List.getElem?_eq_getElem hl, List.getD_eq_getElem?_getD,
    List.getElem?_eq_getElem hl]
  rfl

theorem lerpVec_zero (a b : Vec3) : lerpVec a b 0 = a := by
  simp [lerpVec]

theorem lerpVec_self (a : Vec3) (t : ℚ) : lerpVec a a t = a := by
  simp [lerpVec]

/-- For `t ≥ 0` the produced position is the linear interpolation between the
bracketing samples, with indices clamped at the upper end. -/
theorem scenePlayback_pos_formula (traj : TrajectoryData) (v0 : Vec3) (t : ℚ)
    (L : ℕ) (hP : traj.positions.length = L) (hL : 1 ≤ L) (ht : 0 ≤ t) :
    (scenePlayback traj v0 t).rocketPosition =
      some (lerpVec (traj.positions.getD (min ⌊t⌋.toNat (L - 1)) (0, 0, 0))
        (traj.positions.getD (min (⌊t⌋.toNat + 1) (L - 1)) (0, 0, 0))
        (t - ((min ⌊t⌋.toNat (L - 1) : ℕ) : ℚ))) := by
  have hf0 : 0 ≤ ⌊t⌋ := Int.floor_nonneg.2 ht
  have h0i : 0 ≤ min ⌊t⌋ ((L : ℤ) - 1) := by omega
  have hiN : (min ⌊t⌋ ((L : ℤ) - 1)).toNat = min ⌊t⌋.toNat (L - 1) := by omega
  have hilt : (min ⌊t⌋ ((L : ℤ) - 1)).toNat < L := by omega
  have h0j : 0 ≤ min (min ⌊t⌋ ((L : ℤ) - 1) + 1) ((L : ℤ) - 1) := by omega
  have hjN : (min (min ⌊t⌋ ((L : ℤ) - 1) + 1) ((L : ℤ) - 1)).toNat =
      min (⌊t⌋.toNat + 1) (L - 1) := by omega
  have hjlt : (min (min ⌊t⌋ ((L : ℤ) - 1) + 1) ((L : ℤ) - 1)).toNat < L := by
    omega
  have hcast : ((min ⌊t⌋ ((L : ℤ) - 1) : ℤ) : ℚ) =
      ((min ⌊t⌋.toNat (L - 1) : ℕ) : ℚ) := by
    rw [← hiN]
    exact_mod_cast (congrArg Int.cast (Int.toNat_of_nonneg h0i)).symm
  unfold scenePlayback
  dsimp only
  rw [hP]
  rw [jsIndex_eq_getD _ _ h0i (by rw [hP]; exact hilt),
    jsIndex_eq_getD _ _ h0j (by rw [hP]; exact hjlt)]
  dsimp only
  rw [hiN, hjN, hcast]

/-- C10 (amended): for every well-shaped trajectory (`|P| = |V| = L ≥ 1`,
`|F| = L - 1`) and every playback time `t ≥ 0`, the produced position is the
linear interpolation between the samples at `min(⌊t⌋, L-1)` and
`min(⌊t⌋+1, L-1)` (clamped at the upper end only — negative times read out
of range, see the counterexample); velocity is piecewise-constant at the
lower bracketing index; thrust is piecewise-constant at the lower bracketing
index while it lies within the thrust array and the `[0,0,0]` fallback at or
beyond the final sample; at an integer time `t = k < L` the position is
exactly `P[k]`; and beyond the final sample the position stays clamped to
`P[L-1]`.  Repeated evaluation at equal `t` is identical by purity. -/
theorem claim_C10_playback (traj : TrajectoryData) (v0 : Vec3) (t : ℚ)
    (L : ℕ) (hP : traj.positions.length = L)
    (hV : traj.velocities.length = L) (hT : traj.thrusts.length = L - 1)
    (hL : 1 ≤ L) (ht : 0 ≤ t) :
    (scenePlayback traj v0 t).rocketPosition =
      some (lerpVec (traj.positions.getD (min ⌊t⌋.toNat (L - 1)) (0, 0, 0))
        (traj.positions.getD (min (⌊t⌋.toNat + 1) (L - 1)) (0, 0, 0))
        (t - ((min ⌊t⌋.toNat (L - 1) : ℕ) : ℚ))) ∧
    (scenePlayback traj v0 t).rocketVelocity =
      some (traj.velocities.getD (min ⌊t⌋.toNat (L - 1)) (0, 0, 0)) ∧
    (scenePlayback traj v0 t).thrustVector =
      (if min ⌊t⌋.toNat (L - 1) < L - 1 then
        some (traj.thrusts.getD (min ⌊t⌋.toNat (L - 1)) (0, 0, 0))
      else some (0, 0, 0)) ∧
    (∀ k : ℕ, k < L → (scenePlayback traj v0 (k : ℚ)).rocketPosition =
      some (traj.positions.getD k (0, 0, 0))) ∧
    (∀ u : ℚ, (L : ℚ) - 1 ≤ u →
      (scenePlayback traj v0 u).rocketPosition =
        some (traj.positions.getD (L - 1) (0, 0, 0))) := by
  have hf0 : 0 ≤ ⌊t⌋ := Int.floor_nonneg.2 ht
  have h0i : 0 ≤ min ⌊t⌋ ((L : ℤ) - 1) := by omega
  have hiN : (min ⌊t⌋ ((L : ℤ) - 1)).toNat = min ⌊t⌋.toNat (L - 1) := by omega
  refine ⟨scenePlayback_pos_formula traj v0 t L hP hL ht, ?_, ?_, ?_, ?_⟩
  · unfold scenePlayback
    dsimp only
    rw [hP, hV, if_pos (by omega),
      jsIndex_eq_getD _ _ h0i (by rw [hV]; omega), hiN]
  · unfold scenePlayback
    dsimp only
    rw [hP, hT]
    by_cases hc : min ⌊t⌋.toNat (L - 1) < L - 1
    · rw [if_pos (by omega), if_pos hc,
        jsIndex_eq_getD _ _ h0i (by rw [hT]; omega), hiN]
    · rw [if_neg (by omega), if_neg hc]
  · intro k hk
    have hfk : ⌊(k : ℚ)⌋ = (k : ℤ) := Int.floor_natCast k
    have hmin : min k (L - 1) = k := by omega
    rw [scenePlayback_pos_formula traj v0 (k : ℚ) L hP hL (by positivity)]
    simp only [hfk, Int.toNat_natCast, hmin]
    simp [sub_self, lerpVec_zero]
  · intro u hu
    have hL1 : (0 : ℚ) ≤ (L : ℚ) - 1 := by
      have : (1 : ℚ) ≤ (L : ℚ) := by exact_mod_cast hL
      linarith
    have hu0 : 0 ≤ u := le_trans hL1 hu
    have hfl : ((L : ℤ) - 1) ≤ ⌊u⌋ := by
      rw [Int.le_floor]
      push_cast
      linarith
    have hfu0 : 0 ≤ ⌊u⌋ := Int.floor_nonneg.2 hu0
    have h1 : min ⌊u⌋.toNat (L - 1) = L - 1 := by omega
    have h2 : min (⌊u⌋.toNat + 1) (L - 1) = L - 1 := by omega
    rw [scenePlayback_pos_formula traj v0 u L hP hL hu0, h1, h2, lerpVec_self]

/-- Witness for the amended C10: the two-sample trajectory at `t = 3/2`. -/
theorem claim_C10_witness :
    trajA.positions.length = 2 ∧ trajA.velocities.length = 2 ∧
    trajA.thrusts.length = 2 - 1 ∧ 1 ≤ 2 ∧ (0 : ℚ) ≤ 3/2 ∧
    ((scenePlayback trajA (0, 0, 0) (3/2)).rocketPosition =
      some (lerpVec
        (trajA.positions.getD (min ⌊(3/2 : ℚ)⌋.toNat (2 - 1)) (0, 0, 0))
        (trajA.positions.getD (min (⌊(3/2 : ℚ)⌋.toNat + 1) (2 - 1)) (0, 0, 0))
        ((3/2 : ℚ) - ((min ⌊(3/2 : ℚ)⌋.toNat (2 - 1) : ℕ) : ℚ))) ∧
    (scenePlayback trajA (0, 0, 0) (3/2)).rocketVelocity =
      some (trajA.velocities.getD (min ⌊(3/2 : ℚ)⌋.toNat (2 - 1)) (0, 0, 0)) ∧
    (scenePlayback trajA (0, 0, 0) (3/2)).thrustVector =
      (if min ⌊(3/2 : ℚ)⌋.toNat (2 - 1) < 2 - 1 then
        some (trajA.thrusts.getD (min ⌊(3/2 : ℚ)⌋.toNat (2 - 1)) (0, 0, 0))
      else some (0, 0, 0)) ∧
    (∀ k : ℕ, k < 2 → (scenePlayback trajA (0, 0, 0) (k : ℚ)).rocketPosition =
      some (trajA.positions.getD k (0, 0, 0))) ∧
    (∀ u : ℚ, ((2 : ℕ) : ℚ) - 1 ≤ u →
      (scenePlayback trajA (0, 0, 0) u).rocketPosition =
        some (trajA.positions.getD (2 - 1) (0, 0, 0)))) :=
  ⟨rfl, rfl, rfl, by omega, by norm_num,
    claim_C10_playback trajA (0, 0, 0) (3/2) 2 rfl rfl rfl (by omega)
      (by norm_num)⟩

end CvxKerb
